import Mathlib

/-!
Verification of the vulhub-manager environment registry and lifecycle core.

The definitions below are a shallow embedding of the Python sources
`src/app.py`, `src/operations.py` and `src/vulhub_manager.py`.  Pure string
manipulation is modelled over `List Char` so that every definition evaluates
inside the kernel; filesystem contents, subprocess outcomes and HTTP probe
behaviour are passed in explicitly as data.
-/

/-! ## Python string primitives

Helpers reproducing the Python string operations used by the sources:
`str.split(c)` for a one-character separator, `str.lower`, `str.strip`,
substring membership (`pat in s`), `int(s)` and code-point comparison
(the order used by `sorted` / `list.sort`).  Inputs in this code base are
ASCII identifiers, port strings and CLI diagnostics, for which these
models agree with CPython. -/

def splitOnChar (c : Char) : List Char → List (List Char)
  | [] => [[]]
  | x :: xs =>
    let rest := splitOnChar c xs
    if x = c then [] :: rest
    else
      match rest with
      | [] => [[x]]
      | r :: rs => (x :: r) :: rs

/-- Python `s.split(c)` for a single-character separator `c`. -/
def pySplit (s : String) (c : Char) : List String :=
  (splitOnChar c s.toList).map String.mk

/-- ASCII lowering of one character, as `str.lower` acts on ASCII input. -/
def charLower (c : Char) : Char :=
  if 65 ≤ c.toNat && c.toNat ≤ 90 then Char.ofNat (c.toNat + 32) else c

/-- Python `s.lower()` on ASCII input. -/
def pyLower (s : String) : String :=
  String.mk (s.toList.map charLower)

/-- Whitespace characters stripped by Python `str.strip()`. -/
def isPySpace (c : Char) : Bool :=
  c = ' ' || c = '\t' || c = '\n' || c = '\r' || c.toNat = 11 || c.toNat = 12

/-- Python `s.strip()`. -/
def pyStrip (s : String) : String :=
  String.mk (((s.toList.dropWhile isPySpace).reverse.dropWhile isPySpace).reverse)

def startsWithList : List Char → List Char → Bool
  | [], _ => true
  | _ :: _, [] => false
  | p :: ps, c :: cs => p = c && startsWithList ps cs

def containsList (pat : List Char) : List Char → Bool
  | [] => startsWithList pat []
  | c :: cs => startsWithList pat (c :: cs) || containsList pat cs

/-- Python substring test `pat in s`. -/
def pyIn (pat s : String) : Bool :=
  containsList pat.toList s.toList

/-- ASCII decimal digit test, matching the digits accepted by `int` on the
strings this code base handles. -/
def isDigitC (c : Char) : Bool :=
  48 ≤ c.toNat && c.toNat ≤ 57

def pyDigitsVal (cs : List Char) : Nat :=
  cs.foldl (fun n c => n * 10 + (c.toNat - 48)) 0

def pyIntOfChars : List Char → Option Int
  | [] => none
  | c :: ds =>
    if c = '-' then
      if ds ≠ [] && ds.all isDigitC then some (-(pyDigitsVal ds : Int)) else none
    else if c = '+' then
      if ds ≠ [] && ds.all isDigitC then some ((pyDigitsVal ds : Int)) else none
    else if (c :: ds).all isDigitC then some ((pyDigitsVal (c :: ds) : Int)) else none

/-- Python `int(s)` for decimal strings: surrounding whitespace is ignored, an
optional sign is allowed, and anything else raises, which we model as `none`. -/
def pyInt? (s : String) : Option Int :=
  pyIntOfChars (pyStrip s).toList

/-- Code-point comparison of character lists, the order Python uses when
comparing and sorting strings. -/
def strListLe : List Char → List Char → Bool
  | [], _ => true
  | _ :: _, [] => false
  | a :: as, b :: bs =>
    if a.toNat < b.toNat then true
    else if b.toNat < a.toNat then false
    else strListLe as bs

/-- Python string comparison `a <= b`. -/
def pyStrLe (a b : String) : Bool :=
  strListLe a.toList b.toList

/-- Order on strings used for `sorted` calls in the sources. -/
def pyStrOrder (a b : String) : Prop :=
  pyStrLe a b = true

instance : DecidableRel pyStrOrder :=
  fun a b => inferInstanceAs (Decidable (pyStrLe a b = true))

/-- Python `sorted` on a list of strings (code-point order, stable). -/
def pySorted (l : List String) : List String :=
  List.insertionSort pyStrOrder l

/-! ## Identifier resolution (src/operations.py lines 151-162, src/app.py lines 281-287)

Paths are modelled as lists of segments of an absolute POSIX path with no
symlinks; the scan root `VULHUB_PATH` is already resolved.  `Path.resolve`
normalises `.` and `..` segments, with `..` at the filesystem root staying at
the root, which is what `resolveSegs` implements over a reversed segment
stack. -/

def resolveSegs (stack : List String) : List String → List String
  | [] => stack.reverse
  | s :: rest =>
    if s = "" || s = "." then resolveSegs stack rest
    else if s = ".." then resolveSegs stack.tail rest
    else resolveSegs (s :: stack) rest

/-- Model of `(VULHUB_PATH / name).resolve()`: an absolute `name` replaces the
root entirely (pathlib semantics of `/`), otherwise the segments of `name` are
resolved against the root. -/
def pyResolveJoin (root : List String) (name : String) : List String :=
  match name.toList with
  | '/' :: _ => resolveSegs [] (pySplit name '/')
  | _ => resolveSegs root.reverse (pySplit name '/')

/-- Containment test: `root in p.parents or p == root`, i.e. the segments of
`root` are an initial run of the segments of `p`. -/
def underRoot : List String → List String → Bool
  | [], _ => true
  | _ :: _, [] => false
  | a :: as, b :: bs => a = b && underRoot as bs

/-- Filesystem facts consulted during resolution: whether a directory exists
and whether it holds a `docker-compose.yml` manifest. -/
structure FS where
  dirExists : List String → Bool
  hasCompose : List String → Bool

/-- Model of `VulhubOperations._env_dir` (src/operations.py lines 151-162):
empty names are rejected, the name is resolved against the root, identifiers
escaping the root are rejected, and the resolved directory must exist and
contain `docker-compose.yml`. -/
def envDir (fs : FS) (root : List String) (name : String) : Option (List String) :=
  if name = "" then none
  else
    let p := pyResolveJoin root name
    if underRoot root p then
      if fs.dirExists p && fs.hasCompose p then some p else none
    else none

/-- Model of `_get_env_dir_by_name` (src/app.py lines 281-287): the name is
resolved against the root and only containment is checked; raising
`FileNotFoundError` is modelled as `none`.  No existence or manifest check is
performed. -/
def getEnvDirByName (root : List String) (name : String) : Option (List String) :=
  let p := pyResolveJoin root name
  if underRoot root p then some p else none

/-! ## start (src/operations.py lines 30-41) -/

/-- Outcome of the `docker compose up -d` subprocess call performed by
`VulhubOperations._run`: success flag, captured stdout and stderr. -/
structure RunOutcome where
  ok : Bool
  out : String
  err : String
deriving DecidableEq

/-- Result of `VulhubOperations.start`: the returned success flag, the `error`
entry of the info dict (absent on success), the `port_conflict` flag (absent
is modelled as `false`), and whether the compose subprocess was invoked at
all. -/
structure StartResult where
  success : Bool
  error : Option String
  portConflict : Bool
  ranCompose : Bool
deriving DecidableEq

/-- Model of `VulhubOperations.start` (src/operations.py lines 30-41).  The
identifier is resolved first; only when resolution succeeds is the compose
CLI run.  On failure the surfaced text is `err.strip() or out.strip() or` a
default message, and `port_conflict` is set when the lowered stderr contains
one of the two bind-failure phrases. -/
def startOp (fs : FS) (root : List String) (name : String) (run : RunOutcome) : StartResult :=
  match envDir fs root name with
  | none => ⟨false, some ("找不到環境：" ++ name), false, false⟩
  | some _ =>
    if run.ok then ⟨true, none, false, true⟩
    else
      let msg :=
        if pyStrip run.err ≠ "" then pyStrip run.err
        else if pyStrip run.out ≠ "" then pyStrip run.out
        else "啟動失敗"
      let conflict :=
        pyIn "address already in use" (pyLower run.err) ||
        pyIn "port is already allocated" (pyLower run.err)
      ⟨false, some msg, conflict, true⟩

/-! ## Compose manifest port parsing (src/app.py lines 119-162, src/vulhub_manager.py lines 176-188)

A declared port entry is either a string or a mapping; mappings are modelled
as association lists of string keys to integer values (insertion order
preserved, keys unique), matching the structured compose port syntax
`{target: 80, published: 8080, ...}`. -/

inductive PortItem where
  | str (s : String)
  | pdict (entries : List (String × Nat))
deriving DecidableEq

def lookupAssoc (key : String) : List (String × Nat) → Option Nat
  | [] => none
  | (k, v) :: rest => if k = key then some v else lookupAssoc key rest

/-- String port entry handling from `_compose_parse_services_ports`
(src/app.py lines 138-150): with at least one colon, `str(int(parts[-2]))` is
taken and a failing `int` conversion skips the entry; with no colon the sole
token is taken verbatim. -/
def hostPortsOfStr (s : String) : List String :=
  let parts := pySplit s ':'
  if 2 ≤ parts.length then
    match pyInt? (parts.getD (parts.length - 2) "") with
    | some n => [toString n]
    | none => []
  else [parts.headD ""]

/-- Mapping port entry handling (src/app.py lines 151-155): the `published`
value is used when present and truthy. -/
def hostPortsOfItem : PortItem → List String
  | .str s => hostPortsOfStr s
  | .pdict d =>
    match lookupAssoc "published" d with
    | some n => if n ≠ 0 then [toString n] else []
    | none => []

/-- Host ports recovered for one service by `_compose_parse_services_ports`;
only the first recoverable port is retained (src/app.py lines 156-158). -/
def composeServicePort (items : List PortItem) : Option String :=
  ((items.map hostPortsOfItem).flatten).head?

/-- Outcome of reading and `yaml.safe_load`-ing a manifest: the load can
raise, produce `None`, produce a non-mapping document, or produce a mapping
of service names to configurations.  A service configuration is its optional
`ports` list (`none` when the key is absent or its value is null). -/
inductive PyLoad where
  | raised
  | null
  | nondict
  | doc (services : List (String × Option (List PortItem)))
deriving DecidableEq

/-- Model of `_compose_parse_services_ports` (src/app.py lines 119-162):
missing manifest or missing PyYAML yield empty collections; a load that
raises is caught (lines 159-160); a `None` document becomes `{}` via
`or {}` (line 130); a non-mapping document raises at `data.get` and is
caught.  Otherwise service names are collected in manifest order and the
first recoverable host port per service is kept. -/
def composeParseServicesPorts (composeExists yamlAvailable : Bool) (load : PyLoad) :
    List String × List (String × String) :=
  if !composeExists then ([], [])
  else if !yamlAvailable then ([], [])
  else
    match load with
    | .raised | .null | .nondict => ([], [])
    | .doc svcs =>
      (svcs.map (fun sp => sp.1),
       svcs.filterMap (fun sp =>
         (composeServicePort (sp.2.getD [])).map (fun hp => (sp.1, hp))))

/-- Python `str` of a port mapping given to `VulhubManager._extract_ports`:
a string renders as itself, a dict as its `repr`. -/
def pyStrOfItem : PortItem → String
  | .str s => s
  | .pdict d =>
    "\x7b" ++ String.intercalate ", "
      (d.map (fun kv => "\x27" ++ kv.1 ++ "\x27: " ++ toString kv.2)) ++ "\x7d"

/-- Per-service port extraction of `VulhubManager._extract_ports`
(src/vulhub_manager.py lines 181-187): the first entry whose string form
contains a colon contributes `parts[0]`, the token before the first colon,
and the loop breaks. -/
def extractPortsService : List PortItem → Option String
  | [] => none
  | it :: rest =>
    let s := pyStrOfItem it
    if pyIn ":" s then some ((pySplit s ':').headD "") else extractPortsService rest

/-- Model of `VulhubManager._extract_ports` (src/vulhub_manager.py lines
176-188) over a loaded mapping document, assuming list-valued `ports` keys. -/
def extractPorts (svcs : List (String × Option (List PortItem))) : List (String × String) :=
  svcs.filterMap (fun sp =>
    match sp.2 with
    | none => none
    | some items => (extractPortsService items).map (fun hp => (sp.1, hp)))

/-! ## Filesystem scan of src/app.py (lines 231-278) -/

/-- Per-directory inputs to `_scan_environments_fs`: the path of the manifest
directory relative to the scan root (forward slashes), the manifest load
outcome, and the results of the auxiliary filesystem and docker probes
(`README` checks, `_image_files`, `_has_exploit`,
`_check_docker_images_exist`), which are external effects modelled as
booleans. -/
structure FsDir where
  rel : String
  load : PyLoad
  readmePresent : Bool
  readmeZhPresent : Bool
  imagesPresent : Bool
  exploitPresent : Bool
  dockerImagesPresent : Bool
deriving DecidableEq

/-- Flat environment record produced by `_scan_environments_fs`
(src/app.py lines 259-271). -/
structure EnvRec where
  name : String
  category : String
  cve : String
  status : String
  ports : List (String × String)
  services : List String
  has_exploit : Bool
  has_images : Bool
  has_readme : Bool
  has_readme_zh : Bool
  has_docker_images : Bool
deriving DecidableEq

/-- Record construction for one manifest directory (src/app.py lines
244-271): category is the first path segment, cve the last, status is always
`unknown`, services and ports come from `_compose_parse_services_ports`. -/
def mkEnvRec (yamlAvailable : Bool) (d : FsDir) : EnvRec :=
  let parts := pySplit d.rel '/'
  let sp := composeParseServicesPorts true yamlAvailable d.load
  ⟨d.rel, parts.headD "unknown", parts.getLastD "unknown", "unknown",
   sp.2, sp.1, d.exploitPresent, d.imagesPresent, d.readmePresent,
   d.readmeZhPresent, d.dockerImagesPresent⟩

/-- Sort order used by `envs.sort(key=lambda x: x["name"])`. -/
def envRecLe (a b : EnvRec) : Prop :=
  pyStrLe a.name b.name = true

instance : DecidableRel envRecLe :=
  fun a b => inferInstanceAs (Decidable (pyStrLe a.name b.name = true))

/-- Model of `_scan_environments_fs` (src/app.py lines 231-278): one record
per discovered manifest directory, in filesystem traversal order, then a
stable sort by `name`. -/
def scanFS (yamlAvailable : Bool) (dirs : List FsDir) : List EnvRec :=
  List.insertionSort envRecLe (dirs.map (mkEnvRec yamlAvailable))

/-! ## VulhubManager (src/vulhub_manager.py) -/

/-- Prefix match of the pattern `(?i)^(CVE-\d{4}-\d{4,7})` against one path
segment, upper-cased as in src/vulhub_manager.py lines 104-110: four digits,
a dash, then four to seven digits captured greedily. -/
def cveSegMatch (seg : String) : Option String :=
  match seg.toList with
  | c :: v :: e :: d :: rest =>
    if charLower c = 'c' && charLower v = 'v' && charLower e = 'e' && d = '-' then
      let y := rest.take 4
      let rest2 := rest.drop 4
      if y.length = 4 && y.all isDigitC then
        match rest2 with
        | '-' :: ds =>
          let run := ds.takeWhile isDigitC
          if 4 ≤ run.length then
            some (String.mk ('C' :: 'V' :: 'E' :: '-' :: (y ++ '-' :: run.take 7)))
          else none
        | _ => none
      else none
    else none
  | _ => none

/-- First path segment matching the CVE pattern, with its index
(src/vulhub_manager.py lines 105-112). -/
def findCveIdx (i : Nat) : List String → Option (Nat × String)
  | [] => none
  | s :: rest =>
    match cveSegMatch s with
    | some c => some (i, c)
    | none => findCveIdx (i + 1) rest

/-- Per-directory inputs to `VulhubManager._parse_environment`: relative path
segments, the absolute directory path string, manifest text and load outcome
(`raised` also covers a failing read, lines 126-133), README probes, the
per-pattern image glob results, the `*.py` glob results, and the
`datetime.now().isoformat()` value observed during the scan. -/
structure MgrEnvInfo where
  relParts : List String
  pathStr : String
  load : PyLoad
  composeText : String
  readmePresent : Bool
  readmeZhPresent : Bool
  pngFiles : List String
  jpgFiles : List String
  jpegFiles : List String
  gifFiles : List String
  pyFiles : List String
  nowIso : String
deriving DecidableEq

/-- Environment dataclass of src/vulhub_manager.py lines 13-30. -/
structure VulhubEnvironment where
  name : String
  path : String
  category : String
  cve : String
  services : List String
  ports : List (String × String)
  status : String
  has_readme : Bool
  has_readme_zh : Bool
  has_images : Bool
  images : List String
  has_exploit : Bool
  exploit_files : List String
  compose_hash : String
  last_checked : String
deriving DecidableEq

/-- Model of `VulhubManager._parse_environment` (src/vulhub_manager.py lines
93-174).  A failing read or a raising `yaml.safe_load` returns `None`
(modelled `.ok none`, lines 131-133); a document that is not a mapping makes
line 152 raise, which propagates to the caller (modelled `.error ()` and
caught by `scan`).  `md5hex` is the hex digest function used for
`compose_hash`. -/
def parseEnvironment (md5hex : String → String) (info : MgrEnvInfo) :
    Except Unit (Option VulhubEnvironment) :=
  if info.relParts.length = 0 then .ok none
  else
    let cveFound := findCveIdx 0 info.relParts
    let category :=
      match cveFound with
      | some (idx, _) =>
        if 0 < idx then info.relParts.getD (idx - 1) "" else info.relParts.headD ""
      | none =>
        if 2 ≤ info.relParts.length then info.relParts.getD (info.relParts.length - 2) ""
        else info.relParts.headD ""
    let cve :=
      match cveFound with
      | some (_, c) => c
      | none => info.relParts.getLastD "unknown"
    let name := String.intercalate "/" info.relParts
    match info.load with
    | .raised => .ok none
    | .null => .error ()
    | .nondict => .error ()
    | .doc svcs =>
      let images := info.pngFiles.take 3 ++ info.jpgFiles.take 3 ++
        info.jpegFiles.take 3 ++ info.gifFiles.take 3
      let exploitFiles := info.pyFiles.filter (fun f =>
        pyIn "exploit" (pyLower f) || pyIn "poc" (pyLower f) ||
        pyIn "cve" (pyLower f) || pyIn "exp" (pyLower f))
      .ok (some ⟨name, info.pathStr, category, cve, svcs.map (fun sp => sp.1),
        extractPorts svcs, "unknown", info.readmePresent, info.readmeZhPresent,
        decide (0 < images.length), pySorted images, decide (0 < exploitFiles.length),
        pySorted exploitFiles, md5hex info.composeText, info.nowIso⟩)

/-- Model of the rebuild path of `VulhubManager.scan` (src/vulhub_manager.py
lines 73-91): directories are visited in filesystem traversal order, records
are appended as parsed, parse exceptions are caught and the directory is
skipped, and no sort is applied before returning. -/
def scanMgr (md5hex : String → String) (dirs : List MgrEnvInfo) : List VulhubEnvironment :=
  dirs.flatMap (fun d =>
    match parseEnvironment md5hex d with
    | .ok (some e) => [e]
    | .ok none => []
    | .error _ => [])

/-- Cache gate of `VulhubManager.scan` (src/vulhub_manager.py lines 68-71):
the cached snapshot is used exactly when caching is requested, the cache file
exists and its mtime age in seconds is below 3600.  No fingerprint of the
manifest set is consulted. -/
def scanUsesCache (useCache cacheFileExists : Bool) (cacheAgeSec : Nat) : Bool :=
  useCache && cacheFileExists && decide (cacheAgeSec < 3600)

/-! ## Persistent cache of src/app.py (lines 26-27, 65-116) -/

/-- Cache TTL from src/app.py line 27: 24 hours in milliseconds. -/
def CACHE_TTL_MS : Nat := 24 * 60 * 60 * 1000

/-- Model of `_calculate_vulhub_hash` (src/app.py lines 65-73): the digest of
the concatenation of the sorted relative manifest paths.  The md5 hex digest
is passed in as `md5hex`. -/
def calculateVulhubHash (md5hex : String → String) (rels : List String) : String :=
  md5hex (String.join (pySorted rels))

/-- Parsed content of the persistent cache file: the stored environments, the
capture timestamp in epoch milliseconds, and the stored manifest-set digest
(`none` when the key is absent). -/
structure CacheData where
  environments : List EnvRec
  timestamp : Nat
  vulhubHash : Option String
deriving DecidableEq

/-- Model of `_load_persistent_cache` (src/app.py lines 76-100): a missing
file, an unreadable file (`parsed = none`), an expired timestamp, or a digest
differing from the freshly computed digest of the current manifest set all
yield `none`; otherwise the stored environments are returned. -/
def loadPersistentCache (md5hex : String → String) (fileExists : Bool)
    (parsed : Option CacheData) (nowMs : Nat) (rels : List String) :
    Option (List EnvRec) :=
  if fileExists then
    match parsed with
    | none => none
    | some c =>
      if CACHE_TTL_MS < nowMs - c.timestamp then none
      else if c.vulhubHash ≠ some (calculateVulhubHash md5hex rels) then none
      else some c.environments
  else none

/-- Cache file content written by `_save_persistent_cache` (src/app.py lines
103-116): environments, capture time, and the digest of the manifest set at
store time. -/
def savePersistentCacheData (md5hex : String → String) (envs : List EnvRec)
    (nowMs : Nat) (rels : List String) : CacheData :=
  ⟨envs, nowMs, some (calculateVulhubHash md5hex rels)⟩

/-- On-disk content of the cache file over the course of a store, for both
`_save_persistent_cache` (src/app.py lines 112-113) and
`VulhubManager._save_to_cache` (src/vulhub_manager.py lines 216-217): the
previous content, then the empty file left by `open(.., 'w')` truncating on
open, then the fully written payload.  `none` stands for a missing file. -/
def saveCacheFileStates (prev : Option String) (payload : String) :
    List (Option String) :=
  [prev, some "", some payload]

/-- An atomic replace-or-fail write never exposes an on-disk state other than
the previous content or the final content. -/
def isAtomicReplace (states : List (Option String)) (prev final : Option String) : Bool :=
  states.all (fun s => decide (s = prev) || decide (s = final))

/-! ## wait_ready (src/operations.py lines 104-135) -/

/-- Behaviour of the probed service at one attempt: no connection, or an HTTP
response with the given status code. -/
inductive ServerReply where
  | silent
  | reply (status : Nat)
deriving DecidableEq

/-- Model of `urllib.request.urlopen`: a connection failure raises `URLError`
and a response with status at least 400 raises `HTTPError`, so the call
returns a response object only for statuses below 400.  `none` models a
raise. -/
def urlopenOk : ServerReply → Option Nat
  | .silent => none
  | .reply s => if s < 400 then some s else none

/-- External behaviour seen by one `wait_ready` call: the host ports reported
by `_pick_host_ports` at each one-second iteration, and the server behaviour
per iteration, scheme (`false` = http, `true` = https) and port. -/
structure ProbeWorld where
  portsAt : Nat → List Nat
  serverAt : Nat → Bool → Nat → ServerReply

/-- One probe pass over the schemes `http` then `https` (src/operations.py
lines 122-130): the pass succeeds when some `urlopen` call returns without
raising; every raise is swallowed by the `except` clause on line 129. -/
def probeOnce (w : ProbeWorld) (i port : Nat) : Bool :=
  (urlopenOk (w.serverAt i false port)).isSome ||
  (urlopenOk (w.serverAt i true port)).isSome

/-- Polling loop of `wait_ready` (src/operations.py lines 118-131), one
iteration per second until the deadline: when ports are found the first one
becomes the chosen port and is probed; a successful probe returns ready,
otherwise the loop continues. -/
def waitLoop (w : ProbeWorld) : Nat → Nat → Option Nat → Bool × Option Nat
  | 0, _, chosen => (false, chosen)
  | fuel + 1, i, chosen =>
    match (w.portsAt i).head? with
    | some port =>
      if probeOnce w i port then (true, some port)
      else waitLoop w fuel (i + 1) (some port)
    | none => waitLoop w fuel (i + 1) chosen

/-- Model of `VulhubOperations.wait_ready` (src/operations.py lines 104-135):
the API-level flag, the `ready` field, and the optional `port` field.  A
missing urllib or an unresolvable identifier short-circuit to a successful
API result with `ready = false`; the loop runs for `max 1 timeout` seconds;
after the deadline a truthy chosen port is attached for diagnostics (a port
value of 0 is falsy in Python and dropped, line 133). -/
def waitReadyOp (urllibAvailable envResolves : Bool) (w : ProbeWorld)
    (timeout : Int) : Bool × Bool × Option Nat :=
  if !urllibAvailable then (true, false, none)
  else if !envResolves then (true, false, none)
  else
    match waitLoop w (max 1 timeout).toNat 0 none with
    | (true, p) => (true, true, p)
    | (false, some p) => if p ≠ 0 then (true, false, some p) else (true, false, none)
    | (false, none) => (true, false, none)

/-! ## Status updates of api_start and api_stop (src/app.py lines 548-572) -/

/-- Copy of a record with a new status; every other field is preserved. -/
def withStatus (e : EnvRec) (st : String) : EnvRec :=
  ⟨e.name, e.category, e.cve, st, e.ports, e.services, e.has_exploit,
   e.has_images, e.has_readme, e.has_readme_zh, e.has_docker_images⟩

/-- Loop of src/app.py lines 555-558: the first record whose name matches is
given the new status and the loop breaks; later records are untouched. -/
def setFirstStatus (name newStatus : String) : List EnvRec → List EnvRec
  | [] => []
  | e :: rest =>
    if e.name = name then withStatus e newStatus :: rest
    else e :: setFirstStatus name newStatus rest

/-- Cache mutation of `api_start` (src/app.py lines 548-559): on success the
matching cached record becomes `running`; on failure the cache is left
untouched.  No rescan is involved: the result is a function of the cached
list alone. -/
def apiStartUpdate (ok : Bool) (cache : List EnvRec) (name : String) : List EnvRec :=
  if ok then setFirstStatus name "running" cache else cache

/-- Cache mutation of `api_stop` (src/app.py lines 562-572), analogous with
status `stopped`. -/
def apiStopUpdate (ok : Bool) (cache : List EnvRec) (name : String) : List EnvRec :=
  if ok then setFirstStatus name "stopped" cache else cache

/-! ## Concrete fixtures used by witnesses and counterexamples -/

/-- Example scan root `/srv/vulhub`. -/
def rootEx : List String := ["srv", "vulhub"]

/-- Filesystem with a single manifest directory `nexus/CVE-2020-10199`. -/
def fsOne : FS :=
  ⟨fun p => decide (p = ["srv", "vulhub", "nexus", "CVE-2020-10199"]),
   fun p => decide (p = ["srv", "vulhub", "nexus", "CVE-2020-10199"])⟩

/-- Filesystem with no directories and no manifests at all. -/
def fsNone : FS := ⟨fun _ => false, fun _ => false⟩

/-- Filesystem where every path exists and holds a manifest. -/
def fsAll : FS := ⟨fun _ => true, fun _ => true⟩

/-- Probe world with host port 8080 always published and a server answering
every request with HTTP status 404. -/
def world404 : ProbeWorld := ⟨fun _ => [8080], fun _ _ _ => .reply 404⟩

/-- Scan fixture: manifest directory `alpha` with an empty services map. -/
def mgrInfoA : MgrEnvInfo :=
  ⟨["alpha"], "/srv/vulhub/alpha", .doc [], "svc-a", false, false,
   [], [], [], [], [], "2025-01-01T00:00:00"⟩

/-- Scan fixture: manifest directory `beta` with an empty services map. -/
def mgrInfoB : MgrEnvInfo :=
  ⟨["beta"], "/srv/vulhub/beta", .doc [], "svc-b", false, false,
   [], [], [], [], [], "2025-01-01T00:00:00"⟩

/-- Scan fixture: a directory whose manifest fails to load. -/
def mgrInfoRaised : MgrEnvInfo :=
  ⟨["thing", "CVE-2020-0001"], "/srv/vulhub/thing/CVE-2020-0001", .raised, "",
   true, false, [], [], [], [], [], "2025-01-01T00:00:00"⟩

/-- App scan fixture for directory `alpha/CVE-2020-0001`. -/
def fsDirA : FsDir := ⟨"alpha/CVE-2020-0001", .doc [], true, false, false, false, false⟩

/-- App scan fixture for directory `beta/CVE-2021-0002`. -/
def fsDirB : FsDir := ⟨"beta/CVE-2021-0002", .doc [], false, false, false, true, false⟩

/-- Failed compose run whose stdout carries the bind-failure text while
stderr is empty. -/
def runConflictOut : RunOutcome := ⟨false, "bind: address already in use", ""⟩

/-- Failed compose run whose stderr carries the bind-failure text. -/
def runConflict : RunOutcome := ⟨false, "", "Error: port is already allocated\n"⟩

/-- Two cached records with distinct names, used by the C8 witness. -/
def cacheEx : List EnvRec :=
  [⟨"alpha/CVE-2020-0001", "alpha", "CVE-2020-0001", "unknown", [], [],
    false, false, false, false, false⟩,
   ⟨"beta/CVE-2021-0002", "beta", "CVE-2021-0002", "unknown", [], [],
    false, false, false, false, false⟩]

/-! ## Order lemmas for the string comparison -/

theorem charToNatInj {a b : Char} (h : a.toNat = b.toNat) : a = b :=
  Char.ext (UInt32.ext h)

theorem strListLe_total : ∀ as bs, strListLe as bs = true ∨ strListLe bs as = true
  | [], _ => Or.inl rfl
  | _ :: _, [] => Or.inr rfl
  | a :: as, b :: bs => by
    simp only [strListLe]
    rcases Nat.lt_trichotomy a.toNat b.toNat with h | h | h
    · left
      simp [h]
    · rw [if_neg (by omega), if_neg (by omega), if_neg (by omega), if_neg (by omega)]
      exact strListLe_total as bs
    · right
      simp [h]

theorem strListLe_trans : ∀ as bs cs, strListLe as bs = true → strListLe bs cs = true →
    strListLe as cs = true
  | [], _, _, _, _ => rfl
  | _ :: _, [], _, h1, _ => absurd h1 (by simp [strListLe])
  | _ :: _, _ :: _, [], _, h2 => absurd h2 (by simp [strListLe])
  | a :: as, b :: bs, c :: cs, h1, h2 => by
    simp only [strListLe] at h1 h2 ⊢
    rcases Nat.lt_trichotomy a.toNat b.toNat with hab | hab | hab
    · rcases Nat.lt_trichotomy b.toNat c.toNat with hbc | hbc | hbc
      · simp [show a.toNat < c.toNat by omega]
      · simp [show a.toNat < c.toNat by omega]
      · rw [if_neg (by omega), if_pos hbc] at h2
        exact absurd h2 (by simp)
    · rcases Nat.lt_trichotomy b.toNat c.toNat with hbc | hbc | hbc
      · simp [show a.toNat < c.toNat by omega]
      · rw [if_neg (by omega), if_neg (by omega)] at h1
        rw [if_neg (by omega), if_neg (by omega)] at h2
        rw [if_neg (by omega), if_neg (by omega)]
        exact strListLe_trans as bs cs h1 h2
      · rw [if_neg (by omega), if_pos hbc] at h2
        exact absurd h2 (by simp)
    · rw [if_neg (by omega), if_pos hab] at h1
      exact absurd h1 (by simp)

theorem strListLe_antisymm : ∀ as bs, strListLe as bs = true → strListLe bs as = true →
    as = bs
  | [], [], _, _ => rfl
  | [], _ :: _, _, h2 => absurd h2 (by simp [strListLe])
  | _ :: _, [], h1, _ => absurd h1 (by simp [strListLe])
  | a :: as, b :: bs, h1, h2 => by
    simp only [strListLe] at h1 h2
    rcases Nat.lt_trichotomy a.toNat b.toNat with h | h | h
    · rw [if_neg (by omega), if_pos h] at h2
      exact absurd h2 (by simp)
    · rw [if_neg (by omega), if_neg (by omega)] at h1
      rw [if_neg (by omega), if_neg (by omega)] at h2
      rw [charToNatInj h, strListLe_antisymm as bs h1 h2]
    · rw [if_neg (by omega), if_pos h] at h1
      exact absurd h1 (by simp)

theorem pyStrLe_antisymm {a b : String} (h1 : pyStrLe a b = true)
    (h2 : pyStrLe b a = true) : a = b := by
  have hdata : a.toList = b.toList := strListLe_antisymm _ _ h1 h2
  cases a
  cases b
  exact congrArg String.mk hdata

instance : IsTotal EnvRec envRecLe :=
  ⟨fun a b => strListLe_total a.name.toList b.name.toList⟩

instance : IsTrans EnvRec envRecLe :=
  ⟨fun a b c h1 h2 => strListLe_trans a.name.toList b.name.toList c.name.toList h1 h2⟩

/-- Strict counterpart of `envRecLe`, used to show that a sorted duplicate-free
snapshot is uniquely determined. -/
def envRecLt (a b : EnvRec) : Prop :=
  envRecLe a b ∧ ¬ envRecLe b a

instance : IsAntisymm EnvRec envRecLt :=
  ⟨fun _ _ h1 h2 => absurd h1.1 h2.2⟩

theorem sorted_lt_of_sorted_le_nodup {l : List EnvRec}
    (hs : List.Sorted envRecLe l) (hn : (l.map EnvRec.name).Nodup) :
    List.Sorted envRecLt l := by
  have hne : List.Pairwise (fun a b : EnvRec => a.name ≠ b.name) l :=
    List.pairwise_map.mp hn
  refine (hs.and hne).imp ?_
  intro a b h
  refine ⟨h.1, fun hba => h.2 (pyStrLe_antisymm h.1 hba)⟩

/-! ## Frame lemma for the cached status update -/

theorem setFirstStatus_eq_map (name st : String) :
    ∀ l : List EnvRec, (l.map EnvRec.name).Nodup →
      setFirstStatus name st l =
        l.map (fun e => if e.name = name then withStatus e st else e)
  | [], _ => rfl
  | e :: rest, hnd => by
    have hnd1 : e.name ∉ rest.map EnvRec.name := (List.nodup_cons.mp hnd).1
    have hnd2 : (rest.map EnvRec.name).Nodup := (List.nodup_cons.mp hnd).2
    by_cases he : e.name = name
    · simp only [setFirstStatus, if_pos he, List.map_cons]
      have hrest : ∀ x ∈ rest, (if x.name = name then withStatus x st else x) = x := by
        intro x hx
        rw [if_neg]
        intro hxn
        exact hnd1 (List.mem_map.mpr ⟨x, hx, by rw [hxn, he]⟩)
      rw [List.map_congr_left hrest, List.map_id']
    · simp only [setFirstStatus, if_neg he, List.map_cons]
      rw [setFirstStatus_eq_map name st rest hnd2]

/-! ## Claim theorems -/

/-- C1 (amended): both resolvers enforce containment under the scan root, so
every accepted identifier resolves to a descendant of (or equal to) the root
and traversal or absolute-path escapes are rejected; the manifest check is
performed only by `VulhubOperations._env_dir`, which also guards `start` so
that no compose subprocess runs for a rejected identifier.  The app-side
`_get_env_dir_by_name` performs no manifest or existence check (see the
counterexample). -/
theorem c1_resolution_containment_amended (fs : FS) (root : List String)
    (name : String) (p : List String) (run : RunOutcome) :
    (envDir fs root name = some p →
      underRoot root p = true ∧ fs.hasCompose p = true) ∧
    (getEnvDirByName root name = some p → underRoot root p = true) ∧
    (envDir fs root name = none → (startOp fs root name run).ranCompose = false) := by
  refine ⟨?_, ?_, ?_⟩
  · intro h
    simp only [envDir] at h
    split at h
    · exact absurd h (by simp)
    · split at h
      · split at h
        · rename_i hroot hchk
          obtain rfl := Option.some.inj h
          rw [Bool.and_eq_true] at hchk
          exact ⟨hroot, hchk.2⟩
        · exact absurd h (by simp)
      · exact absurd h (by simp)
  · intro h
    simp only [getEnvDirByName] at h
    split at h
    · rename_i hroot
      obtain rfl := Option.some.inj h
      exact hroot
    · exact absurd h (by simp)
  · intro h
    simp [startOp, h]

/-- C1 witness: a well-formed identifier is accepted by `_env_dir` and indeed
resolves under the root with a manifest present, and an escaping identifier
makes `start` fail before any subprocess invocation. -/
theorem c1_resolution_witness :
    underRoot rootEx ["srv", "vulhub", "nexus", "CVE-2020-10199"] = true ∧
    fsOne.hasCompose ["srv", "vulhub", "nexus", "CVE-2020-10199"] = true ∧
    (startOp fsNone rootEx "../escape" ⟨true, "", ""⟩).ranCompose = false := by
  have h1 := (c1_resolution_containment_amended fsOne rootEx "nexus/CVE-2020-10199"
    ["srv", "vulhub", "nexus", "CVE-2020-10199"] ⟨true, "", ""⟩).1 (by decide)
  have h3 := (c1_resolution_containment_amended fsNone rootEx "../escape"
    ["srv", "vulhub"] ⟨true, "", ""⟩).2.2 (by decide)
  exact ⟨h1.1, h1.2, h3⟩

/-- C1 counterexample: `_get_env_dir_by_name` accepts the identifier `ghost`
on a filesystem holding no manifest at all, while `_env_dir` rejects it, so
the claim that both resolvers reject manifest-less identifiers is false. -/
theorem c1_manifest_counterexample :
    getEnvDirByName rootEx "ghost" = some ["srv", "vulhub", "ghost"] ∧
    fsNone.hasCompose ["srv", "vulhub", "ghost"] = false ∧
    envDir fsNone rootEx "ghost" = none := by decide

/-- C2 (amended): the parser of src/app.py takes the second-to-last
colon-delimited token as the host port (so `127.0.0.1:8080:80` yields `8080`
and `8080:80` yields `8080`), uses the `published` field of a structured
mapping, yields no port for an unparseable entry without raising, and retains
only the first recoverable host port per service; but
`VulhubManager._extract_ports` instead takes the token before the first
colon, yielding the bind address `127.0.0.1` for a three-part form and a
fragment of the dict repr for a structured mapping. -/
theorem c2_port_extraction_amended :
    composeServicePort [.str "127.0.0.1:8080:80"] = some "8080" ∧
    composeServicePort [.str "8080:80"] = some "8080" ∧
    composeServicePort [.str "abc:def"] = none ∧
    composeServicePort [.pdict [("target", 80), ("published", 8080)]] = some "8080" ∧
    composeServicePort [.str "1000:80", .str "2000:90"] = some "1000" ∧
    extractPortsService [.str "127.0.0.1:8080:80"] = some "127.0.0.1" ∧
    extractPortsService [.pdict [("target", 80), ("published", 8080)]] =
      some "\x7b\x27target\x27" := by
  decide

/-- C2 counterexample: on the three-part declaration `127.0.0.1:8080:80` the
port extraction of `VulhubManager._extract_ports` yields `127.0.0.1`, not the
claimed second-to-last token `8080`. -/
theorem c2_extract_ports_counterexample :
    extractPortsService [.str "127.0.0.1:8080:80"] = some "127.0.0.1" ∧
    ¬ (("127.0.0.1" : String) = "8080") := by
  decide

/-- C3 (amended): `_scan_environments_fs` produces a name-sorted sequence
whose identifiers are duplicate-free whenever the discovered directories are
distinct, and its output is independent of the filesystem traversal order (so
re-running it on an unchanged tree yields an identical snapshot); but
`VulhubManager.scan` returns records in raw traversal order without sorting
(see the counterexample). -/
theorem c3_scan_sorted_amended (yA : Bool) (dirs dirs2 : List FsDir)
    (hnd : (dirs.map FsDir.rel).Nodup) (hperm : dirs.Perm dirs2) :
    List.Sorted envRecLe (scanFS yA dirs) ∧
    ((scanFS yA dirs).map EnvRec.name).Nodup ∧
    scanFS yA dirs = scanFS yA dirs2 := by
  have hname : ∀ l : List FsDir,
      (l.map (mkEnvRec yA)).map EnvRec.name = l.map FsDir.rel := by
    intro l
    rw [List.map_map]
    rfl
  have hsorted1 : List.Sorted envRecLe (scanFS yA dirs) :=
    List.sorted_insertionSort envRecLe _
  have hsorted2 : List.Sorted envRecLe (scanFS yA dirs2) :=
    List.sorted_insertionSort envRecLe _
  have hpermNames : ((scanFS yA dirs).map EnvRec.name).Perm (dirs.map FsDir.rel) := by
    have h := (List.perm_insertionSort envRecLe (dirs.map (mkEnvRec yA))).map EnvRec.name
    rwa [hname] at h
  have hnod1 : ((scanFS yA dirs).map EnvRec.name).Nodup :=
    hpermNames.nodup_iff.mpr hnd
  refine ⟨hsorted1, hnod1, ?_⟩
  have hnd2 : (dirs2.map FsDir.rel).Nodup := (hperm.map FsDir.rel).nodup_iff.mp hnd
  have hpermNames2 : ((scanFS yA dirs2).map EnvRec.name).Perm (dirs2.map FsDir.rel) := by
    have h := (List.perm_insertionSort envRecLe (dirs2.map (mkEnvRec yA))).map EnvRec.name
    rwa [hname] at h
  have hnod2 : ((scanFS yA dirs2).map EnvRec.name).Nodup :=
    hpermNames2.nodup_iff.mpr hnd2
  have hpermScan : (scanFS yA dirs).Perm (scanFS yA dirs2) :=
    (List.perm_insertionSort _ _).trans
      ((hperm.map _).trans (List.perm_insertionSort _ _).symm)
  exact List.eq_of_perm_of_sorted hpermScan
    (sorted_lt_of_sorted_le_nodup hsorted1 hnod1)
    (sorted_lt_of_sorted_le_nodup hsorted2 hnod2)

/-- C3 witness: two concrete directories scanned in either order give the
same sorted, duplicate-free snapshot. -/
theorem c3_scan_sorted_witness :
    List.Sorted envRecLe (scanFS true [fsDirB, fsDirA]) ∧
    ((scanFS true [fsDirB, fsDirA]).map EnvRec.name).Nodup ∧
    scanFS true [fsDirB, fsDirA] = scanFS true [fsDirA, fsDirB] :=
  c3_scan_sorted_amended true [fsDirB, fsDirA] [fsDirA, fsDirB]
    (by decide) (by decide)

/-- C3 counterexample: `VulhubManager.scan` visited in the order
`beta, alpha` returns its records in that traversal order, which is not
sorted ascending by identifier, so the scan cited in the claim is neither
sorted nor traversal-order independent. -/
theorem c3_manager_scan_counterexample :
    (scanMgr (fun s => s) [mgrInfoB, mgrInfoA]).map VulhubEnvironment.name =
      ["beta", "alpha"] ∧
    pyStrLe "beta" "alpha" = false := by
  decide

/-- C4 (code evaluated at the failing input): a service that answers every
probe with HTTP 404 makes `urlopen` raise `HTTPError`, which the `except`
clause on line 129 of src/operations.py swallows, so `wait_ready` keeps
polling and finally reports `ready = false` with the port attached — not
`ready = true` as the claim states for 4xx/5xx responses. -/
theorem c4_wait_ready_http_error_eval :
    urlopenOk (.reply 404) = none ∧
    waitReadyOp true true world404 5 = (true, false, some 8080) := by
  decide

/-- C5 (amended): `_load_persistent_cache` of src/app.py rejects the stored
envelope when the elapsed time exceeds the 24-hour TTL or when the stored
digest differs from the freshly computed digest of the sorted concatenated
relative manifest paths, so a load after a store sees `none` whenever the
manifest set digest changed; but the cache gate of `VulhubManager.scan` uses
only a one-hour file-age check and no fingerprint (see the counterexample). -/
theorem c5_cache_invalidation_amended (md5hex : String → String) (c : CacheData)
    (envs : List EnvRec) (t0 nowMs : Nat) (rels relsOld : List String) :
    (CACHE_TTL_MS < nowMs - c.timestamp →
      loadPersistentCache md5hex true (some c) nowMs rels = none) ∧
    (c.vulhubHash ≠ some (calculateVulhubHash md5hex rels) →
      loadPersistentCache md5hex true (some c) nowMs rels = none) ∧
    (calculateVulhubHash md5hex relsOld ≠ calculateVulhubHash md5hex rels →
      loadPersistentCache md5hex true
        (some (savePersistentCacheData md5hex envs t0 relsOld)) nowMs rels = none) := by
  refine ⟨?_, ?_, ?_⟩
  · intro h
    simp [loadPersistentCache, h]
  · intro h
    by_cases hT : CACHE_TTL_MS < nowMs - c.timestamp
    · simp [loadPersistentCache, hT]
    · simp [loadPersistentCache, hT, h]
  · intro h
    by_cases hT : CACHE_TTL_MS < nowMs - t0
    · simp [loadPersistentCache, savePersistentCacheData, hT]
    · simp [loadPersistentCache, savePersistentCacheData, hT, h]

/-- C5 witness: an expired envelope, a fresh envelope with a mismatching
stored digest, and a load after a store across a manifest addition all
report absence. -/
theorem c5_cache_witness :
    loadPersistentCache (fun s => s) true (some ⟨[], 0, some "zzz"⟩)
      200000000 ["a", "b"] = none ∧
    loadPersistentCache (fun s => s) true (some ⟨[], 199999999, some "zzz"⟩)
      200000000 ["a", "b"] = none ∧
    loadPersistentCache (fun s => s) true
      (some (savePersistentCacheData (fun s => s) [] 199999999 ["a"]))
      200000000 ["a", "b"] = none := by
  refine ⟨(c5_cache_invalidation_amended (fun s => s) ⟨[], 0, some "zzz"⟩ [] 0
      200000000 ["a", "b"] ["a"]).1 (by decide),
    (c5_cache_invalidation_amended (fun s => s) ⟨[], 199999999, some "zzz"⟩ [] 0
      200000000 ["a", "b"] ["a"]).2.1 (by decide),
    (c5_cache_invalidation_amended (fun s => s) ⟨[], 0, none⟩ [] 199999999
      200000000 ["a", "b"] ["a"]).2.2 (by decide)⟩

/-- C5 counterexample: the cache gate of `VulhubManager.scan` accepts a
10-second-old cache file unconditionally — it has no fingerprint input at
all — so after adding a manifest a load within the hour still returns the
stale snapshot instead of reporting absence. -/
theorem c5_manager_cache_counterexample :
    scanUsesCache true true 10 = true ∧ 10 * 1000 < CACHE_TTL_MS := by
  decide

/-- C6 counterexample: during a store over a previous cache `old` with new
payload `new`, the on-disk file passes through the empty state left by the
truncating open, which is neither the previous nor the final content, so the
write is not a single atomic replace. -/
theorem c6_atomic_store_counterexample :
    isAtomicReplace (saveCacheFileStates (some "old") "new")
      (some "old") (some "new") = false := by
  decide

/-- C6 (amended): both cache writers open the cache file in truncating write
mode and stream JSON into it, so the file is empty immediately after the
open; whenever the previous content is not the empty file and the payload is
nonempty, some intermediate on-disk state differs from both the previous and
the final content — a failure mid-write loses the previous valid cache
rather than leaving it intact. -/
theorem c6_save_not_atomic_amended (prev : Option String) (payload : String)
    (h1 : prev ≠ some "") (h2 : payload ≠ "") :
    some "" ∈ saveCacheFileStates prev payload ∧
    isAtomicReplace (saveCacheFileStates prev payload) prev (some payload) = false := by
  constructor
  · simp [saveCacheFileStates]
  · unfold isAtomicReplace saveCacheFileStates
    have hA : decide ((some "" : Option String) = prev) = false :=
      decide_eq_false (fun hc => h1 hc.symm)
    have hB : decide ((some "" : Option String) = some payload) = false :=
      decide_eq_false (fun hc => h2 (Option.some.inj hc).symm)
    simp [hA, hB]
    exact fun hc => h2 hc.symm

/-- C6 witness: a concrete store over a previous valid cache exposes the
truncated empty state. -/
theorem c6_save_witness :
    some "" ∈ saveCacheFileStates (some "cached") "fresh" ∧
    isAtomicReplace (saveCacheFileStates (some "cached") "fresh")
      (some "cached") (some "fresh") = false :=
  c6_save_not_atomic_amended (some "cached") "fresh" (by decide) (by decide)

/-- C7 (amended): when `start` fails after resolving its identifier, the
surfaced error is the stripped stderr when nonempty, else the stripped
stdout when nonempty, else a fixed default message, and the port-conflict
flag is set exactly when the lowered stderr — not the surfaced text —
contains one of the phrases `address already in use` or
`port is already allocated`. -/
theorem c7_start_error_amended (fs : FS) (root : List String) (name : String)
    (p : List String) (run : RunOutcome)
    (hres : envDir fs root name = some p) (hfail : run.ok = false) :
    (startOp fs root name run).success = false ∧
    (startOp fs root name run).error =
      some (if pyStrip run.err ≠ "" then pyStrip run.err
            else if pyStrip run.out ≠ "" then pyStrip run.out
            else "啟動失敗") ∧
    ((startOp fs root name run).portConflict = true ↔
      (pyIn "address already in use" (pyLower run.err) = true ∨
       pyIn "port is already allocated" (pyLower run.err) = true)) := by
  simp only [startOp, hres, hfail]
  refine ⟨rfl, rfl, ?_⟩
  simp [Bool.or_eq_true]

/-- C7 witness: a failed start whose stderr reports an allocated port
surfaces the stripped diagnostic and sets the flag. -/
theorem c7_start_error_witness :
    (startOp fsAll rootEx "a/b" runConflict).success = false ∧
    (startOp fsAll rootEx "a/b" runConflict).error =
      some "Error: port is already allocated" ∧
    (startOp fsAll rootEx "a/b" runConflict).portConflict = true := by
  have h := c7_start_error_amended fsAll rootEx "a/b" ["srv", "vulhub", "a", "b"]
    runConflict (by decide) rfl
  refine ⟨h.1, ?_, ?_⟩
  · rw [h.2.1]
    decide
  · exact h.2.2.mpr (Or.inr (by decide))

/-- C7 counterexample: when stderr is empty and the bind-failure text arrives
on stdout, the surfaced diagnostic text indicates an address-in-use condition
but the port-conflict flag stays unset, so the flag is not set exactly when
the diagnostic text indicates a bind failure. -/
theorem c7_port_conflict_counterexample :
    (startOp fsAll rootEx "a/b" runConflictOut).error =
      some "bind: address already in use" ∧
    pyIn "address already in use"
      (pyLower ((startOp fsAll rootEx "a/b" runConflictOut).error.getD "")) = true ∧
    (startOp fsAll rootEx "a/b" runConflictOut).portConflict = false := by
  decide

/-- C8: a successful start marks exactly the cached record with the given
identifier as `running` (and a successful stop marks it `stopped`), changing
no other record and no other field, while a failed start or stop leaves the
cached snapshot unchanged; the update is a pure function of the cached list,
involving no rescan. -/
theorem c8_status_update_frame (cache : List EnvRec) (name : String)
    (hnd : (cache.map EnvRec.name).Nodup) :
    apiStartUpdate false cache name = cache ∧
    apiStopUpdate false cache name = cache ∧
    apiStartUpdate true cache name =
      cache.map (fun e => if e.name = name then withStatus e "running" else e) ∧
    apiStopUpdate true cache name =
      cache.map (fun e => if e.name = name then withStatus e "stopped" else e) := by
  refine ⟨rfl, rfl, ?_, ?_⟩
  · simpa [apiStartUpdate] using setFirstStatus_eq_map name "running" cache hnd
  · simpa [apiStopUpdate] using setFirstStatus_eq_map name "stopped" cache hnd

/-- C8 witness: on a concrete two-record cache, failures change nothing and
successes rewrite only the status of the named record. -/
theorem c8_status_update_witness :
    apiStartUpdate false cacheEx "alpha/CVE-2020-0001" = cacheEx ∧
    apiStopUpdate false cacheEx "alpha/CVE-2020-0001" = cacheEx ∧
    apiStartUpdate true cacheEx "alpha/CVE-2020-0001" =
      cacheEx.map (fun e =>
        if e.name = "alpha/CVE-2020-0001" then withStatus e "running" else e) ∧
    apiStopUpdate true cacheEx "alpha/CVE-2020-0001" =
      cacheEx.map (fun e =>
        if e.name = "alpha/CVE-2020-0001" then withStatus e "stopped" else e) :=
  c8_status_update_frame cacheEx "alpha/CVE-2020-0001" (by decide)

/-- C9 (amended): the parser of src/app.py returns empty collections on any
parse failure and the scan of src/app.py still lists every manifest
directory; but `VulhubManager._parse_environment` returns `None` when the
manifest cannot be read or parsed and `VulhubManager.scan` then omits that
directory from the registry instead of listing it with empty collections. -/
theorem c9_parse_never_fails_amended (yA : Bool) (load : PyLoad)
    (dirs : List FsDir) (info : MgrEnvInfo) (md5hex : String → String)
    (hbad : load = .raised ∨ load = .null ∨ load = .nondict)
    (hbad2 : info.load = .raised) :
    composeParseServicesPorts true yA load = ([], []) ∧
    ((scanFS yA dirs).map EnvRec.name).Perm (dirs.map FsDir.rel) ∧
    parseEnvironment md5hex info = .ok none ∧
    scanMgr md5hex [info] = [] := by
  have hparse : parseEnvironment md5hex info = .ok none := by
    unfold parseEnvironment
    split
    · rfl
    · rw [hbad2]
  refine ⟨?_, ?_, hparse, ?_⟩
  · rcases hbad with h | h | h <;> subst h <;> cases yA <;> rfl
  · have h := (List.perm_insertionSort envRecLe (dirs.map (mkEnvRec yA))).map EnvRec.name
    rwa [List.map_map] at h
  · simp [scanMgr, hparse]

/-- C9 witness: a directory whose manifest load raises is dropped by the
manager while the app-side parser and scan degrade gracefully. -/
theorem c9_parse_never_fails_witness :
    composeParseServicesPorts true true .raised = ([], []) ∧
    ((scanFS true [fsDirA]).map EnvRec.name).Perm ([fsDirA].map FsDir.rel) ∧
    parseEnvironment (fun s => s) mgrInfoRaised = .ok none ∧
    scanMgr (fun s => s) [mgrInfoRaised] = [] :=
  c9_parse_never_fails_amended true .raised [fsDirA] mgrInfoRaised (fun s => s)
    (Or.inl rfl) rfl

/-- C9 counterexample: the registry built by `VulhubManager.scan` is empty
for a tree containing one manifest directory whose manifest fails to load, so
the registry does not list every manifest directory. -/
theorem c9_manager_drops_counterexample :
    scanMgr (fun s => s) [mgrInfoRaised] = [] ∧
    mgrInfoRaised.relParts = ["thing", "CVE-2020-0001"] := by
  decide

/-- C10: the first component of the `wait_ready` result — the API-level
success flag — is `true` for every combination of urllib availability,
identifier resolvability, probe behaviour and timeout; only the `ready`
field inside the payload distinguishes outcomes. -/
theorem c10_wait_ready_always_success (a r : Bool) (w : ProbeWorld) (t : Int) :
    (waitReadyOp a r w t).1 = true := by
  unfold waitReadyOp
  split
  · rfl
  · split
    · rfl
    · split
      · rfl
      · split <;> rfl
      · rfl
